import Mathlib

/-!
Shallow embedding of `src/bot.py` (BotGrid), a ShotGrid→Slack notification
relay, together with theorems checking the natural-language specification
against it.

Modelling conventions:
* The external world (ShotGrid tracking source, Slack directory, Slack send
  outcomes) is a `World` of lookup functions.  `find_one`/`find` results are
  records whose fields are `Option`-valued: `none` models a field that is
  absent from the returned mapping, so Python's `dict.get(k, default)` is
  `Option.getD`.
* ShotGrid filter values may be an integer id, a string, or Python `None`
  (`SgVal`).  Record ids are integers, so a string or `None` filter value
  matches no record.
* Side effects are reified as an `Effect` trace returned next to each
  handler's response.  Tracking-source accesses are recorded at the
  granularity of one `Effect.track` entry per root query issued by a handler
  or resolver; Slack directory lookups and message-send attempts are recorded
  exactly, one entry per API call.
* A handler that raises an uncaught Python exception is modelled by a `none`
  response; the webhook boundary catches it and answers the 500 response.
* Machine floats from `time.time()` are modelled as exact rationals: the
  claims about the throttler concern its windowing algorithm, not float
  rounding.
-/

/-- Python value used as a ShotGrid filter id: an integer id, a string, or
`None`.  Record ids in ShotGrid are integers, so only the integer case can
match a record. -/
inductive SgVal where
  | i (n : Nat)
  | s (v : String)
  | null
deriving DecidableEq, Repr

/-- Convert the envelope's optional `entity_id` into a filter value. -/
def sgId : Option Nat → SgVal
  | none => SgVal.null
  | some n => SgVal.i n

/-- `Throttler.__init__` / mutable state of the rate limiter
(src/bot.py lines 30-36).  Times are rationals (see module comment). -/
structure ThrottlerState where
  max_calls : Nat
  period : Rat
  calls : Nat
  last_reset : Rat
deriving DecidableEq, Repr

/-- `Throttler.throttle` (src/bot.py lines 38-47): reset the counter when
more than `period` has elapsed since `last_reset`, then admit iff the
counter is below `max_calls`. -/
def ThrottlerState.throttle (s : ThrottlerState) (current_time : Rat) :
    Bool × ThrottlerState :=
  let s1 := if current_time - s.last_reset > s.period then
    { s with calls := 0, last_reset := current_time } else s
  if s1.calls < s1.max_calls then (true, { s1 with calls := s1.calls + 1 })
  else (false, s1)

/-- Run a sequence of `throttle` calls at the given times, collecting the
admitted/rejected answers and the final state. -/
def runThrottle (s : ThrottlerState) : List Rat → List Bool × ThrottlerState
  | [] => ([], s)
  | t :: ts =>
    let r := s.throttle t
    let rest := runThrottle r.2 ts
    (r.1 :: rest.1, rest.2)

/-- The `throttler` global instance (src/bot.py line 50). -/
def throttler0 : ThrottlerState :=
  { max_calls := 5, period := 10, calls := 0, last_reset := 0 }

/-- Single quote character, used inside composed message bodies. -/
def quo : String := "\x27"

/-- First module-level `STATUS_DESCRIPTIONS` literal (src/bot.py lines
287-301), written next to the Shot handler: the Shot-domain status table. -/
def STATUS_DESCRIPTIONS_shot : List (String × String) :=
  [("wtg", "Waiting to Start"), ("rdy", "Ready to Start"), ("ip", "In Progress"),
   ("qc", "Quality Control"), ("hld", "On Hold"), ("omt", "Omit"),
   ("pla", "Plate"), ("extrev", "Pending External Review"),
   ("prop", "Proposed Final"), ("rfd", "Ready for Delivery"), ("fin", "Final"),
   ("rev", "Pending Review"), ("rc", "Requires Changes")]

/-- Second module-level `STATUS_DESCRIPTIONS` literal (src/bot.py lines
470-484), written next to the Asset handler: the Asset-domain status table. -/
def STATUS_DESCRIPTIONS_asset : List (String × String) :=
  [("wtg", "Waiting to Start"), ("rdy", "Ready to Start"), ("ip", "In Progress"),
   ("hld", "On Hold"), ("omt", "Omit"), ("ia", "Internally Approved"),
   ("rev", "Pending Review"), ("nupt", "New update"), ("rc", "Requires Changes"),
   ("lib", "Library"), ("prop", "Proposed Final"), ("qc", "Quality Control"),
   ("fin", "Final")]

/-- The binding named `STATUS_DESCRIPTIONS` that is in effect at runtime.
Both module-level assignments bind the same global name; Python executes them
in order at import time, so the second literal (line 470) rebinds the name
before any request is served, and every handler that reads
`STATUS_DESCRIPTIONS` — including `handle_shot_event` — sees the
Asset-domain table. -/
def STATUS_DESCRIPTIONS : List (String × String) := STATUS_DESCRIPTIONS_asset

/-- `STATUS_DESCRIPTIONS.get(v, v)`: `None` keys miss (giving back the `None`
default), string keys fall back to the raw code when absent. -/
def statusDescription (v : Option String) : Option String :=
  v.map (fun code => (STATUS_DESCRIPTIONS.lookup code).getD code)

/-- Render an optional string the way a Python f-string renders it
(`None` prints as `"None"`). -/
def pyStr : Option String → String
  | none => "None"
  | some v => v

/-- `Shot` record as returned by `find_one("Shot", ..., ["code",
"project.Project.name", "sg_sequence.Sequence.code"])`. -/
structure ShotRec where
  code : Option String
  projectName : Option String
  seqCode : Option String
deriving DecidableEq, Repr

/-- `Task` record as returned by the per-shot/per-asset `find("Task", ...,
["task_assignees", "step.Step.short_name"])`: assignee user ids plus the
pipeline-step short name. -/
structure TaskRec where
  assignees : List Nat
  step : Option String
deriving DecidableEq, Repr

/-- `Asset` record (`["code", "project.Project.name"]`). -/
structure AssetRec where
  code : Option String
  projectName : Option String
deriving DecidableEq, Repr

/-- `Version` record (`["code", "project.Project.name",
"sg_shot.Shot.code"]`).  Note that the linked-shot field is the shot's CODE
string, not its integer id. -/
structure VersionRec where
  code : Option String
  projectName : Option String
  shotCode : Option String
deriving DecidableEq, Repr

/-- An entity reference `{type, id}` appearing in `note_links`. -/
structure EntityRef where
  type : String
  id : Nat
deriving DecidableEq, Repr

/-- `Note` record (`["content", "note_links", "created_by.HumanUser.email",
"created_by.HumanUser.name"]`), plus the `attachments` field fetched by the
separate `get_attachments_ids_from_note_id` query on the same Note. -/
structure NoteRec where
  content : Option String
  links : List EntityRef
  authorEmail : Option String
  authorName : Option String
  attachments : Option (List Nat)
deriving DecidableEq, Repr

/-- `Reply` record (`["content", "note.Note.content", "note.Note.note_links",
"created_by.HumanUser.email"]`). -/
structure ReplyRec where
  content : Option String
  noteContent : Option String
  noteLinks : List EntityRef
  authorEmail : Option String
deriving DecidableEq, Repr

/-- The `entity` field of a Task record: a linked entity `{type, id, name}`. -/
structure LinkedEntity where
  type : String
  id : Nat
  name : String
deriving DecidableEq, Repr

/-- `Task` record as fetched by the task-assignment handler
(`["entity", "step.Step.short_name"]`). -/
structure TaskDetailRec where
  entity : Option LinkedEntity
  step : Option String
deriving DecidableEq, Repr

/-- The external collaborators: the ShotGrid tracking source (record
lookups keyed by integer id), the Slack directory, and the Slack send
outcome.  `users` maps a HumanUser id to the `email` field of its record
(`none` = no record). `slackIdByEmail` is `users_lookupByEmail` (`none` = the
API raised `SlackApiError`).  `sendOk` tells whether a `chat_postMessage`
attempt succeeds; the code logs and discards this outcome. -/
structure World where
  shots : Nat → Option ShotRec
  shotTasks : Nat → List TaskRec
  assets : Nat → Option AssetRec
  assetTasks : Nat → List TaskRec
  versions : Nat → Option VersionRec
  notes : Nat → Option NoteRec
  replies : Nat → Option ReplyRec
  tasks : Nat → Option TaskDetailRec
  users : Nat → Option String
  attachmentUrl : Nat → Option String
  slackIdByEmail : String → Option String
  sendOk : String → String → Bool

/-- `find_one("Shot", [["id", "is", v]], ...)`: only integer ids match. -/
def findShot (w : World) : SgVal → Option ShotRec
  | SgVal.i n => w.shots n
  | _ => none

/-- `find("Task", [["entity", "is", {"type": "Shot", "id": v}]], ...)`. -/
def findShotTasks (w : World) : SgVal → List TaskRec
  | SgVal.i n => w.shotTasks n
  | _ => []

/-- `find_one("Asset", [["id", "is", v]], ...)`. -/
def findAsset (w : World) : SgVal → Option AssetRec
  | SgVal.i n => w.assets n
  | _ => none

/-- `find("Task", [["entity", "is", {"type": "Asset", "id": v}]], ...)`. -/
def findAssetTasks (w : World) : SgVal → List TaskRec
  | SgVal.i n => w.assetTasks n
  | _ => []

/-- `find_one("Version", [["id", "is", v]], ...)`. -/
def findVersion (w : World) : SgVal → Option VersionRec
  | SgVal.i n => w.versions n
  | _ => none

/-- `find_one("Note", [["id", "is", v]], ...)`. -/
def findNote (w : World) : SgVal → Option NoteRec
  | SgVal.i n => w.notes n
  | _ => none

/-- `find_one("Reply", [["id", "is", v]], ...)`. -/
def findReply (w : World) : SgVal → Option ReplyRec
  | SgVal.i n => w.replies n
  | _ => none

/-- `find_one("Task", [["id", "is", v]], ...)`. -/
def findTask (w : World) : SgVal → Option TaskDetailRec
  | SgVal.i n => w.tasks n
  | _ => none

/-- One step of the side-effect trace of a request: a tracking-source query
(one entry per root query; the per-assignee `HumanUser` lookups performed
inside the resolvers are folded into their resolver's entry), a Slack
directory lookup, a Slack message-send attempt, a `Throttler.throttle` call,
or a `time.sleep`.  No function in src/bot.py ever invokes
`throttler.throttle()` — the instance on line 50 is never used — so no
definition in this file emits `Effect.throttle`. -/
inductive Effect where
  | track (kind : String) (id : SgVal)
  | slackLookup (email : String)
  | send (chatId : String) (text : String) (ok : Bool)
  | throttle (delivered : Bool)
  | sleep (seconds : Nat)
deriving DecidableEq, Repr

/-- `find_slack_user_by_email` followed by the caller's Python truthiness
check on the returned id (`if slack_user_id:`): a lookup error yields `none`;
an empty-string id is falsy and also skipped. -/
def resolveChat (w : World) (email : String) : Option String :=
  match w.slackIdByEmail email with
  | some sid => if sid = "" then none else some sid
  | none => none

/-- `send_slack_message` (src/bot.py lines 53-59): one `chat_postMessage`
attempt; a `SlackApiError` is caught and logged, so the outcome is recorded
in the trace and otherwise discarded. -/
def send_slack_message (w : World) (slack_user_id text : String) : List Effect :=
  [Effect.send slack_user_id text (w.sendOk slack_user_id text)]

/-- `get_shotgrid_user_email` (src/bot.py lines 62-67). -/
def get_shotgrid_user_email (w : World) (user_id : Nat) : Option String :=
  w.users user_id

/-- Python dict-insert used to build `assigned_users` (src/bot.py lines
110-112): append the email under the step key, creating the key at the end
on first use (dicts preserve insertion order). -/
def dictAppend (d : List (String × List String)) (k v : String) :
    List (String × List String) :=
  if d.any (fun p => p.1 = k) then
    d.map (fun p => if p.1 = k then (p.1, p.2 ++ [v]) else p)
  else d ++ [(k, [v])]

/-- The assigned-users loop shared by the Shot and Asset resolvers
(src/bot.py lines 100-112 and 133-145): for each task, for each assignee,
fetch the HumanUser record and, when found, group its email under the
task's pipeline-step short name. -/
def collectAssigned (w : World) (tasks : List TaskRec) :
    List (String × List String) :=
  tasks.foldl (fun acc task =>
    task.assignees.foldl (fun acc2 a =>
      match w.users a with
      | some email => dictAppend acc2 (task.step.getD "Unknown Step") email
      | none => acc2) acc) []

/-- `get_assigned_users_from_tasks` (src/bot.py lines 81-114).  `none`
models the `(None, None, None, None)` return when the Shot record is
absent; otherwise the per-step email groups plus shot, sequence and project
names. -/
def get_assigned_users_from_tasks (w : World) (shot_id : SgVal) :
    Option (List (String × List String) × String × String × String) :=
  match findShot w shot_id with
  | none => none
  | some sd =>
    some (collectAssigned w (findShotTasks w shot_id),
      sd.code.getD "Unknown Shot",
      sd.seqCode.getD "Unknown Sequence",
      sd.projectName.getD "Unknown Project")

/-- `get_assigned_users_from_asset_tasks` (src/bot.py lines 117-147). -/
def get_assigned_users_from_asset_tasks (w : World) (asset_id : SgVal) :
    Option (List (String × List String) × String × String) :=
  match findAsset w asset_id with
  | none => none
  | some ad =>
    some (collectAssigned w (findAssetTasks w asset_id),
      ad.code.getD "Unknown Asset",
      ad.projectName.getD "Unknown Project")

/-- `get_assigned_users_from_version_tasks` (src/bot.py lines 150-177).
`none` models the `(None, None, None)` return when the Version record is
absent.  When a linked-shot code is present, the tuple unpacking on line 171
rebinds `project_name` to the Shot resolver's value, which is Python `None`
when that lookup found nothing — hence the `Option String` project slot.
The shot lookup itself is keyed by the shot CODE string, which as a string
filter value matches no record. -/
def get_assigned_users_from_version_tasks (w : World) (version_id : SgVal) :
    Option (List (String × List String) × String × Option String) :=
  match findVersion w version_id with
  | none => none
  | some vd =>
    let version_name := vd.code.getD "Unknown Version"
    let project_name := vd.projectName.getD "Unknown Project"
    match vd.shotCode with
    | none => some ([], version_name, some project_name)
    | some sc =>
      if sc = "" then some ([], version_name, some project_name)
      else
        match get_assigned_users_from_tasks w (SgVal.s sc) with
        | none => some ([], version_name, none)
        | some (assigned, _, _, proj2) =>
          if assigned.isEmpty then some ([], version_name, some proj2)
          else some (assigned, version_name, some proj2)

/-- `get_attachments_ids_from_note_id` (src/bot.py lines 180-205). -/
def get_attachments_ids_from_note_id (w : World) (node_id : SgVal) :
    List Nat :=
  match findNote w node_id with
  | none => []
  | some note =>
    match note.attachments with
    | none => []
    | some ids => ids

/-- `get_file_url_from_attachment_id` (src/bot.py lines 208-231): the
attachment's file URL, or `""` when the record or its `this_file` field is
absent. -/
def get_file_url_from_attachment_id (w : World) (attachment_id : Nat) :
    String :=
  (w.attachmentUrl attachment_id).getD ""

/-- The standard context prefix `"In <project>|<sequence>|<shot>|<step>\n"`. -/
def contextPrefix (project_name sequence_name shot_name step : String) :
    String :=
  "In " ++ project_name ++ "|" ++ sequence_name ++ "|" ++ shot_name ++ "|" ++
    step ++ "\n"

/-- `send_message_to_assigned_users` (src/bot.py lines 234-249): for every
(step, email) pair in order, look up the Slack identity; a failed or falsy
lookup logs and skips that recipient; otherwise send the context-prefixed
message.  The `try/except SlackApiError` around the send is redundant
(`send_slack_message` already catches), so no failure aborts the loop. -/
def send_message_to_assigned_users (w : World)
    (assigned_users_by_step : List (String × List String))
    (shot_name sequence_name project_name message_content : String) :
    List Effect :=
  (assigned_users_by_step.map (fun p =>
    (p.2.map (fun email =>
      Effect.slackLookup email ::
        match resolveChat w email with
        | some sid =>
          send_slack_message w sid
            (contextPrefix project_name sequence_name shot_name p.1 ++
              message_content)
        | none => [])).flatten)).flatten

/-- The parsed event envelope handed to the webhook (src/bot.py lines
260-264 and the `meta` fields read by the handlers).  Each field is the
result of `dict.get`, hence `Option`-valued; `added`/`removed` are the
assignee-id lists (`.get(..., [])`). -/
structure Envelope where
  entityType : Option String
  entityId : Option Nat
  operation : Option String
  eventType : Option String
  attributeName : Option String
  oldValue : Option String
  newValue : Option String
  added : List Nat
  removed : List Nat
deriving DecidableEq, Repr

/-- The Shot status-change message body (src/bot.py line 314), using the
runtime `STATUS_DESCRIPTIONS` binding. -/
def shotStatusMessage (oldValue newValue : Option String) : String :=
  "A shot status has been changed from " ++ quo ++
    pyStr (statusDescription oldValue) ++ quo ++ " to " ++ quo ++
    pyStr (statusDescription newValue) ++ quo ++ "."

/-- The Asset status-change message body (src/bot.py line 497), using the
same runtime `STATUS_DESCRIPTIONS` binding. -/
def assetStatusMessage (oldValue newValue : Option String) : String :=
  "An asset" ++ quo ++ "s status has been changed from " ++ quo ++
    pyStr (statusDescription oldValue) ++ quo ++ " to " ++ quo ++
    pyStr (statusDescription newValue) ++ quo ++ "."

/-- `handle_shot_event` (src/bot.py lines 304-325): resolve the shot's
assigned users, then send the status-change message per step; an absent
shot or an empty assignment dict are both falsy and answer 404. -/
def handle_shot_event (w : World) (e : Envelope) :
    Option (String × Nat) × List Effect :=
  let entity_id := sgId e.entityId
  let message_content := shotStatusMessage e.oldValue e.newValue
  match get_assigned_users_from_tasks w entity_id with
  | none => (some ("No assigned users found", 404), [Effect.track "Shot" entity_id])
  | some (assigned, shot_name, sequence_name, project_name) =>
    if assigned.isEmpty then
      (some ("No assigned users found", 404), [Effect.track "Shot" entity_id])
    else
      (some ("success", 200),
        Effect.track "Shot" entity_id ::
          (assigned.map (fun p =>
            send_message_to_assigned_users w [p] shot_name sequence_name
              project_name message_content)).flatten)

/-- `handle_asset_event` (src/bot.py lines 487-509); defined in the source
but reachable from no caller — the webhook multiplexer never dispatches
`entity_type == "Asset"`. -/
def handle_asset_event (w : World) (e : Envelope) :
    Option (String × Nat) × List Effect :=
  let entity_id := sgId e.entityId
  let message_content := assetStatusMessage e.oldValue e.newValue
  match get_assigned_users_from_asset_tasks w entity_id with
  | none => (some ("No assigned users found", 404), [Effect.track "Asset" entity_id])
  | some (assigned, asset_name, project_name) =>
    if assigned.isEmpty then
      (some ("No assigned users found", 404), [Effect.track "Asset" entity_id])
    else
      (some ("success", 200),
        Effect.track "Asset" entity_id ::
          (assigned.map (fun p =>
            send_message_to_assigned_users w [p] asset_name "N/A"
              project_name message_content)).flatten)

/-- The note message body before attachment enrichment (src/bot.py line
356) and the first resolvable attachment URL appended when present
(lines 360-370). -/
def noteMessage (w : World) (note_id : SgVal) (nd : NoteRec) : String :=
  let base := nd.authorName.getD "unknown user" ++ " added a note:\n" ++
    nd.content.getD "No content"
  let ids := get_attachments_ids_from_note_id w note_id
  match ids.find? (fun aid => get_file_url_from_attachment_id w aid ≠ "") with
  | some aid => base ++ "\nAnnotated Frame: " ++
      get_file_url_from_attachment_id w aid
  | none => base

/-- `handle_note_event` (src/bot.py lines 328-404): dispatch on the FIRST
linked entity's type; Shot and Asset resolve directly, while Version,
`"Note, Shotgun_Note_Change"` and Playlist all go through the Version
resolver; any other linked type answers 400. -/
def handle_note_event (w : World) (e : Envelope) :
    Option (String × Nat) × List Effect :=
  let note_id := sgId e.entityId
  match findNote w note_id with
  | none => (some ("Note details not found", 404), [Effect.track "Note" note_id])
  | some nd =>
    match nd.links with
    | [] => (some ("No linked entities found", 404), [Effect.track "Note" note_id])
    | le :: _ =>
      let message_content := noteMessage w note_id nd
      let eff0 := [Effect.track "Note" note_id, Effect.sleep 3,
        Effect.track "Note" note_id]
      if le.type = "Shot" then
        match get_assigned_users_from_tasks w (SgVal.i le.id) with
        | none => (some ("No assigned users found for linked Shot", 404),
            eff0 ++ [Effect.track "Shot" (SgVal.i le.id)])
        | some (assigned, shot_name, sequence_name, project_name) =>
          if assigned.isEmpty then
            (some ("No assigned users found for linked Shot", 404),
              eff0 ++ [Effect.track "Shot" (SgVal.i le.id)])
          else
            (some ("success", 200),
              eff0 ++ Effect.track "Shot" (SgVal.i le.id) ::
                (assigned.map (fun p =>
                  send_message_to_assigned_users w [p] shot_name sequence_name
                    project_name message_content)).flatten)
      else if le.type = "Asset" then
        match get_assigned_users_from_asset_tasks w (SgVal.i le.id) with
        | none => (some ("No assigned users found for linked Asset", 404),
            eff0 ++ [Effect.track "Asset" (SgVal.i le.id)])
        | some (assigned, asset_name, project_name) =>
          if assigned.isEmpty then
            (some ("No assigned users found for linked Asset", 404),
              eff0 ++ [Effect.track "Asset" (SgVal.i le.id)])
          else
            (some ("success", 200),
              eff0 ++ Effect.track "Asset" (SgVal.i le.id) ::
                (assigned.map (fun p =>
                  send_message_to_assigned_users w [p] asset_name "N/A"
                    project_name message_content)).flatten)
      else if le.type = "Version" ∨ le.type = "Note, Shotgun_Note_Change" ∨
          le.type = "Playlist" then
        match get_assigned_users_from_version_tasks w (SgVal.i le.id) with
        | none => (some ("No assigned users found for linked Version", 404),
            eff0 ++ [Effect.track "Version" (SgVal.i le.id)])
        | some (assigned, version_name, project_name) =>
          if assigned.isEmpty then
            (some ("No assigned users found for linked Version", 404),
              eff0 ++ [Effect.track "Version" (SgVal.i le.id)])
          else
            (some ("success", 200),
              eff0 ++ Effect.track "Version" (SgVal.i le.id) ::
                (assigned.map (fun p =>
                  send_message_to_assigned_users w [p] version_name "N/A"
                    (pyStr project_name) message_content)).flatten)
      else (some ("Unsupported linked entity type", 400), eff0)

/-- The reply body composed for the linked entity's recipients
(src/bot.py line 544). -/
def replyBody (rd : ReplyRec) : String :=
  "A new Reply has been created:\n" ++ rd.content.getD "No content" ++
    "\nRelated Note: " ++ rd.noteContent.getD "No associated note content"

/-- The self-addressed reply body sent to the reply's author
(src/bot.py line 554); note the extra words "by you". -/
def replyBodySelf (rd : ReplyRec) : String :=
  "A new Reply has been created by you:\n" ++ rd.content.getD "No content" ++
    "\nRelated Note: " ++ rd.noteContent.getD "No associated note content"

/-- The author's chat identity as computed on src/bot.py line 532: looked
up only when `created_by_email` is truthy (the `.get` default is the
non-empty string `"unknown"`, so only a present-but-empty field skips the
lookup). -/
def replyAuthorChat (w : World) (rd : ReplyRec) : Option String :=
  if rd.authorEmail.getD "unknown" = "" then none
  else resolveChat w (rd.authorEmail.getD "unknown")

/-- The Slack-directory lookup effect of src/bot.py line 532. -/
def replyAuthorLookupEff (rd : ReplyRec) : List Effect :=
  if rd.authorEmail.getD "unknown" = "" then []
  else [Effect.slackLookup (rd.authorEmail.getD "unknown")]

/-- `handle_reply_event` (src/bot.py lines 512-558).  Only a FIRST linked
entity of type Shot is delivered to; a first linked entity of any other
type falls through (the `if` body on lines 536-551 only returns for Shots)
to the self-addressed branch, exactly like a reply with no links at all. -/
def handle_reply_event (w : World) (e : Envelope) :
    Option (String × Nat) × List Effect :=
  let reply_id := sgId e.entityId
  match findReply w reply_id with
  | none => (some ("Reply details not found", 404), [Effect.track "Reply" reply_id])
  | some rd =>
    let eff0 := Effect.track "Reply" reply_id :: replyAuthorLookupEff rd
    let selfBranch : Option (String × Nat) × List Effect :=
      match replyAuthorChat w rd with
      | some sid => (some ("success", 200),
          eff0 ++ send_slack_message w sid (replyBodySelf rd))
      | none => (some ("No users found for notification", 404), eff0)
    match rd.noteLinks with
    | [] => selfBranch
    | le :: _ =>
      if le.type = "Shot" then
        match get_assigned_users_from_tasks w (SgVal.i le.id) with
        | none => (some ("No assigned users found for linked entity", 404),
            eff0 ++ [Effect.track "Shot" (SgVal.i le.id)])
        | some (assigned, shot_name, sequence_name, project_name) =>
          if assigned.isEmpty then
            (some ("No assigned users found for linked entity", 404),
              eff0 ++ [Effect.track "Shot" (SgVal.i le.id)])
          else
            (some ("success", 200),
              eff0 ++ Effect.track "Shot" (SgVal.i le.id) ::
                send_message_to_assigned_users w assigned shot_name
                  sequence_name project_name (replyBody rd))
      else selfBranch

/-- The per-assignee notification loop of the task-assignment handler
(src/bot.py lines 438-449 and 451-462): fetch the user's email, check its
truthiness, look up the Slack identity, and send the given body with the
context prefix. -/
def taskAssigneeEffects (w : World)
    (project_name sequence_name shot_name step_name body : String)
    (ids : List Nat) : List Effect :=
  (ids.map (fun a =>
    Effect.track "HumanUser" (SgVal.i a) ::
      match get_shotgrid_user_email w a with
      | some em =>
        if em = "" then []
        else
          Effect.slackLookup em ::
            match resolveChat w em with
            | some sid =>
              send_slack_message w sid
                (contextPrefix project_name sequence_name shot_name step_name
                  ++ body)
            | none => []
      | none => [])).flatten

/-- `handle_task_assignment_event` (src/bot.py lines 407-467).  A missing
Shot record makes line 435 call `.get` on `None`, raising `AttributeError`,
modelled by the `none` response (caught at the webhook boundary). -/
def handle_task_assignment_event (w : World) (e : Envelope) :
    Option (String × Nat) × List Effect :=
  if e.attributeName ≠ some "task_assignees" then
    (some ("Not a task assignment event", 200), [])
  else
    let entity_id := sgId e.entityId
    match findTask w entity_id with
    | none => (some ("Task details not found", 404), [Effect.track "Task" entity_id])
    | some td =>
      let step_name := td.step.getD "Unknown Step"
      match td.entity with
      | none => (some ("Not linked to a Shot", 200), [Effect.track "Task" entity_id])
      | some le =>
        if le.type = "Shot" then
          match findShot w (SgVal.i le.id) with
          | none => (none, [Effect.track "Task" entity_id,
              Effect.track "Shot" (SgVal.i le.id)])
          | some sd =>
            let project_name := sd.projectName.getD "Unknown Project"
            let sequence_name := sd.seqCode.getD "Unknown Sequence"
            (some ("success", 200),
              [Effect.track "Task" entity_id, Effect.track "Shot" (SgVal.i le.id)]
                ++ taskAssigneeEffects w project_name sequence_name le.name
                    step_name "You have been assigned to a task." e.added
                ++ taskAssigneeEffects w project_name sequence_name le.name
                    step_name "You have been removed from a task." e.removed)
        else (some ("Not linked to a Shot", 200), [Effect.track "Task" entity_id])

/-- The webhook multiplexer (src/bot.py lines 252-284), starting from the
parsed envelope: dispatch on the (entity_type, event_type, operation)
triple in declaration order; any non-match answers 400 having performed no
side effect; an exception escaping a handler is caught and answers 500. -/
def webhook (w : World) (e : Envelope) : (String × Nat) × List Effect :=
  let r :=
    if e.entityType = some "Shot" then handle_shot_event w e
    else if e.entityType = some "Note" ∧ e.eventType = some "Shotgun_Note_New"
        ∧ e.operation = some "create" then handle_note_event w e
    else if e.entityType = some "Reply" ∧ e.eventType = some "Shotgun_Reply_New"
        ∧ e.operation = some "create" then handle_reply_event w e
    else if e.entityType = some "Task" ∧ e.eventType = some "Shotgun_Task_Change"
        ∧ e.operation = some "update" then handle_task_assignment_event w e
    else (some ("Entity type or event not supported", 400), [])
  match r with
  | (some resp, eff) => (resp, eff)
  | (none, eff) => (("Error processing data", 500), eff)

/-- The message-send attempts of a trace, in order (chat id and body;
the success flag is dropped). -/
def sendsOf (tr : List Effect) : List (String × String) :=
  tr.filterMap (fun ef => match ef with
    | Effect.send c t _ => some (c, t)
    | _ => none)

/-- The Slack-directory lookups of a trace, in order. -/
def slackLookupsOf (tr : List Effect) : List String :=
  tr.filterMap (fun ef => match ef with
    | Effect.slackLookup em => some em
    | _ => none)

/-- Whether a trace entry is a message-send attempt. -/
def isSendE : Effect → Bool
  | Effect.send _ _ _ => true
  | _ => false

/-- Whether a trace entry is a `Throttler.throttle` call. -/
def isThrottleE : Effect → Bool
  | Effect.throttle _ => true
  | _ => false

/-- Whether a trace entry is an ADMITTED `Throttler.throttle` call. -/
def isThrottleAdmitE : Effect → Bool
  | Effect.throttle b => b
  | _ => false

/-- Flatten a per-step recipient grouping into its ordered (step, email)
occurrences. -/
def flatPairs (d : List (String × List String)) : List (String × String) :=
  (d.map (fun p => p.2.map (fun em => (p.1, em)))).flatten

/-- The claim shape of C3 on a given trace: every message-send attempt is
preceded by an admitted rate-limiter check. -/
def rateLimiterGated (tr : List Effect) : Prop :=
  ∀ i, ∀ (h : i < tr.length), isSendE (tr.get ⟨i, h⟩) = true →
    ∃ j, j < i ∧ (tr[j]?.map isThrottleAdmitE).getD false = true

/-- Whether every time in the list lies in the closed window
`[a, a + len]`. -/
def windowAll (a len : Rat) (ts : List Rat) : Bool :=
  ts.all (fun t => decide (a ≤ t) && decide (t ≤ a + len))

/-- A world in which every external lookup misses. -/
def emptyWorld : World where
  shots := fun _ => none
  shotTasks := fun _ => []
  assets := fun _ => none
  assetTasks := fun _ => []
  versions := fun _ => none
  notes := fun _ => none
  replies := fun _ => none
  tasks := fun _ => none
  users := fun _ => none
  attachmentUrl := fun _ => none
  slackIdByEmail := fun _ => none
  sendOk := fun _ _ => true

/-- Concrete world for the Shot-event claims: Shot 5 with two tasks (steps
"anim" and "comp") both assigned to user 42, whose email resolves to Slack
id "U42". -/
def Wshot : World :=
  { emptyWorld with
    shots := fun n =>
      if n = 5 then some ⟨some "SH020", some "Atlas", some "SQ010"⟩ else none,
    shotTasks := fun n =>
      if n = 5 then [⟨[42], some "anim"⟩, ⟨[42], some "comp"⟩] else [],
    users := fun n => if n = 42 then some "a@x" else none,
    slackIdByEmail := fun em => if em = "a@x" then some "U42" else none }

/-- Concrete world with a single task for the status-table claim: Shot 5,
one task in step "anim" assigned to user 42. -/
def Wshot1 : World :=
  { Wshot with
    shotTasks := fun n =>
      if n = 5 then [⟨[42], some "anim"⟩] else [] }

/-- Concrete Shot status-change envelope, "ip" → "fin". -/
def Eshot : Envelope :=
  { entityType := some "Shot", entityId := some 5, operation := some "update",
    eventType := some "Shotgun_Shot_Change",
    attributeName := some "sg_status_list",
    oldValue := some "ip", newValue := some "fin", added := [], removed := [] }

/-- Concrete Shot status-change envelope, "pla" → "fin"; "pla" (Plate) is a
Shot-domain status code. -/
def EshotPla : Envelope :=
  { Eshot with oldValue := some "pla" }

/-- Concrete world for the delivery-path claims: only the Slack directory
entry for "a@x" exists. -/
def Wdeliver : World :=
  { emptyWorld with
    slackIdByEmail := fun em => if em = "a@x" then some "U1" else none }

/-- The delivery trace of one recipient set through the fan-out path in
`Wdeliver`. -/
def deliverTrace1 : List Effect :=
  send_message_to_assigned_users Wdeliver [("anim", ["a@x"])] "SH" "SQ" "P" "msg"

/-- A burst of ten throttle calls: five at t = 9 and five at t = 21/2, all
inside the rolling window [9, 19] of length `period = 10`. -/
def burstTimes : List Rat :=
  [9, 9, 9, 9, 9, 21/2, 21/2, 21/2, 21/2, 21/2]

/-- Concrete world for the Reply-event claims: Reply 3 whose parent note's
first (and only) link is a Version, and whose author resolves to Slack id
"U1". -/
def Wreply : World :=
  { emptyWorld with
    replies := fun n =>
      if n = 3 then some ⟨some "hi", some "orig", [⟨"Version", 9⟩], some "a@x"⟩
      else none,
    slackIdByEmail := fun em => if em = "a@x" then some "U1" else none }

/-- Concrete Reply-created envelope for Reply 3. -/
def Ereply : Envelope :=
  { entityType := some "Reply", entityId := some 3,
    operation := some "create", eventType := some "Shotgun_Reply_New",
    attributeName := none, oldValue := none, newValue := none,
    added := [], removed := [] }

/-- Concrete world for the Version-resolution claim: Version 9 exists with
no linked shot; Version 8 does not exist. -/
def Wver : World :=
  { emptyWorld with
    versions := fun n =>
      if n = 9 then some ⟨some "V9", some "Atlas", none⟩ else none }

/-- Concrete Asset status-change envelope (entity type routed by no
dispatch row of the webhook). -/
def Easset : Envelope :=
  { entityType := some "Asset", entityId := some 5,
    operation := some "update", eventType := some "Shotgun_Asset_Change",
    attributeName := some "sg_status_list",
    oldValue := some "ip", newValue := some "fin", added := [], removed := [] }

/-- Concrete world for the task-assignment claims: Task 11 linked to Shot 5
("SH020", step "anim"), Task 12 linked to an Asset; user 7 resolves to
Slack id "U7". -/
def Wtask : World :=
  { emptyWorld with
    tasks := fun n =>
      if n = 11 then some ⟨some ⟨"Shot", 5, "SH020"⟩, some "anim"⟩
      else if n = 12 then some ⟨some ⟨"Asset", 5, "AS"⟩, some "anim"⟩
      else none,
    shots := fun n =>
      if n = 5 then some ⟨some "SH020", some "Atlas", some "SQ010"⟩ else none,
    users := fun n => if n = 7 then some "u7@x" else none,
    slackIdByEmail := fun em => if em = "u7@x" then some "U7" else none }

/-- Concrete task-assignment envelope: Task 11, `added=[{id:7}]`,
`removed=[]`. -/
def Etask : Envelope :=
  { entityType := some "Task", entityId := some 11,
    operation := some "update", eventType := some "Shotgun_Task_Change",
    attributeName := some "task_assignees", oldValue := none,
    newValue := none, added := [7], removed := [] }

/-- Concrete task-assignment envelope for Task 12 (linked to an Asset, not
a Shot). -/
def EtaskAsset : Envelope :=
  { Etask with entityId := some 12 }

theorem runThrottle_count_of_no_reset (ts : List Rat) (s : ThrottlerState)
    (h : ∀ t ∈ ts, t - s.last_reset ≤ s.period) :
    ((runThrottle s ts).1.count true =
      min ts.length (s.max_calls - s.calls)) ∧
    ((runThrottle s ts).1.count false =
      ts.length - min ts.length (s.max_calls - s.calls)) := by
  induction ts generalizing s with
  | nil => simp [runThrottle]
  | cons t ts ih =>
    have ht : ¬ (t - s.last_reset > s.period) :=
      not_lt.mpr (h t (List.mem_cons_self t ts))
    have hrest : ∀ u ∈ ts, u - s.last_reset ≤ s.period :=
      fun u hu => h u (List.mem_cons_of_mem t hu)
    by_cases hc : s.calls < s.max_calls
    · have hih := ih { s with calls := s.calls + 1 } hrest
      simp [runThrottle, ThrottlerState.throttle, if_neg ht, if_pos hc,
        List.count_cons] at hih ⊢
      omega
    · have hih := ih s hrest
      simp [runThrottle, ThrottlerState.throttle, if_neg ht, if_neg hc,
        List.count_cons] at hih ⊢
      omega

/-- C4, counterexample.  The Throttler is a fixed-window counter, not a
rolling-window limiter: with `max_calls = 5`, `period = 10`, a burst of five
calls at t = 9 followed by five at t = 10.5 crosses a window reset, so all
ten calls are admitted even though they all lie inside the single rolling
period-length window [9, 19].  This falsifies "admits at most max_calls
calls within any rolling period-length window". -/
theorem C4_counterexample :
    (runThrottle throttler0 burstTimes).1.count true = 10 ∧
    windowAll 9 throttler0.period burstTimes = true ∧
    ¬ ((runThrottle throttler0 burstTimes).1.count true ≤
        throttler0.max_calls) := by
  refine ⟨?_, ?_, ?_⟩ <;>
    norm_num [runThrottle, ThrottlerState.throttle, throttler0, burstTimes,
      windowAll, List.count_cons]

/-- C4, amended.  The Throttler bounds admissions per FIXED window, not per
rolling window: starting from a freshly reset counter, a burst of
`max_calls + k` calls whose times all lie within `period` of the window
start (`last_reset`) — so that no reset fires — yields exactly `max_calls`
admitted calls and `k` rejected ones. -/
theorem C4_corrected (s : ThrottlerState) (ts : List Rat) (k : Nat)
    (h0 : s.calls = 0)
    (hw : ∀ t ∈ ts, t - s.last_reset ≤ s.period)
    (hlen : ts.length = s.max_calls + k) :
    (runThrottle s ts).1.count true = s.max_calls ∧
    (runThrottle s ts).1.count false = k := by
  obtain ⟨h1, h2⟩ := runThrottle_count_of_no_reset ts s hw
  rw [h1, h2, hlen, h0]
  constructor <;> omega

/-- Witness for C4_corrected: three calls against `max_calls = 2`,
`period = 10`, all inside the first window — two admitted, one rejected. -/
theorem C4_corrected_witness :
    (runThrottle ⟨2, 10, 0, 0⟩ [1, 2, 3]).1.count true = 2 ∧
    (runThrottle ⟨2, 10, 0, 0⟩ [1, 2, 3]).1.count false = 1 :=
  C4_corrected ⟨2, 10, 0, 0⟩ [1, 2, 3] 1 rfl (by norm_num) rfl

theorem sendsOf_append (a b : List Effect) :
    sendsOf (a ++ b) = sendsOf a ++ sendsOf b := by
  simp [sendsOf, List.filterMap_append]

theorem sendsOf_flatten (L : List (List Effect)) :
    sendsOf L.flatten = (L.map sendsOf).flatten := by
  induction L with
  | nil => rfl
  | cons a L ih => simp [List.flatten_cons, sendsOf_append, ih]

theorem filterMap_flatten_eq {α β : Type} (g : α → Option β)
    (L : List (List α)) :
    L.flatten.filterMap g = (L.map (fun l => l.filterMap g)).flatten := by
  induction L with
  | nil => rfl
  | cons a L ih => simp [List.flatten_cons, List.filterMap_append, ih]

theorem sends_per_email (w : World) (step sn sq pn mc : String)
    (us : List String) :
    sendsOf ((us.map (fun email =>
      Effect.slackLookup email ::
        match resolveChat w email with
        | some sid => send_slack_message w sid
            (contextPrefix pn sq sn step ++ mc)
        | none => [])).flatten) =
    us.filterMap (fun em => (resolveChat w em).map
      (fun sid => (sid, contextPrefix pn sq sn step ++ mc))) := by
  induction us with
  | nil => rfl
  | cons e us ih =>
    simp only [List.map_cons, List.flatten_cons, sendsOf_append, ih,
      List.filterMap_cons]
    cases h : resolveChat w e <;>
      simp [sendsOf, send_slack_message, h]

theorem sends_delivery (w : World) (d : List (String × List String))
    (sn sq pn mc : String) :
    sendsOf (send_message_to_assigned_users w d sn sq pn mc) =
    (flatPairs d).filterMap (fun p => (resolveChat w p.2).map
      (fun sid => (sid, contextPrefix pn sq sn p.1 ++ mc))) := by
  induction d with
  | nil => rfl
  | cons p d ih =>
    simp only [send_message_to_assigned_users, List.map_cons,
      List.flatten_cons, sendsOf_append, flatPairs,
      List.filterMap_append] at *
    rw [ih, sends_per_email]
    simp only [List.filterMap_map]
    rfl

theorem sends_per_step_delivery (w : World)
    (assigned : List (String × List String)) (sn sq pn mc : String) :
    sendsOf ((assigned.map (fun p =>
      send_message_to_assigned_users w [p] sn sq pn mc)).flatten) =
    (flatPairs assigned).filterMap (fun p => (resolveChat w p.2).map
      (fun sid => (sid, contextPrefix pn sq sn p.1 ++ mc))) := by
  induction assigned with
  | nil => rfl
  | cons p d ih =>
    simp only [List.map_cons, List.flatten_cons, sendsOf_append, ih,
      sends_delivery, flatPairs, List.filterMap_append]
    simp

theorem lookupsOf_append (a b : List Effect) :
    slackLookupsOf (a ++ b) = slackLookupsOf a ++ slackLookupsOf b := by
  simp [slackLookupsOf, List.filterMap_append]

theorem lookups_per_email (w : World) (step sn sq pn mc : String)
    (us : List String) :
    slackLookupsOf ((us.map (fun email =>
      Effect.slackLookup email ::
        match resolveChat w email with
        | some sid => send_slack_message w sid
            (contextPrefix pn sq sn step ++ mc)
        | none => [])).flatten) = us := by
  induction us with
  | nil => rfl
  | cons e us ih =>
    simp only [List.map_cons, List.flatten_cons, lookupsOf_append, ih]
    cases h : resolveChat w e <;>
      simp [slackLookupsOf, send_slack_message, h]

theorem lookups_delivery (w : World) (d : List (String × List String))
    (sn sq pn mc : String) :
    slackLookupsOf (send_message_to_assigned_users w d sn sq pn mc) =
    (flatPairs d).map Prod.snd := by
  induction d with
  | nil => rfl
  | cons p d ih =>
    simp only [send_message_to_assigned_users, List.map_cons,
      List.flatten_cons, lookupsOf_append, flatPairs, List.map_append] at *
    rw [ih, lookups_per_email]
    simp [List.map_map, Function.comp]

/-- C7, confirmed.  During the delivery fan-out over a recipient set, every
(step, email) pair gets its chat-identity lookup (first conjunct: the
lookups are exactly the emails of all pairs, in order); a pair whose lookup
fails is skipped while all others are still attempted (second conjunct: the
send attempts are exactly the resolvable pairs, each attempted once — no
synchronous retry); and a failed send attempt changes nothing about which
sends are attempted (third conjunct: making every send fail leaves the
attempt list unchanged), so no single-recipient failure aborts the batch. -/
theorem C7_confirmed (w : World) (d : List (String × List String))
    (sn sq pn mc : String) :
    slackLookupsOf (send_message_to_assigned_users w d sn sq pn mc) =
      (flatPairs d).map Prod.snd ∧
    sendsOf (send_message_to_assigned_users w d sn sq pn mc) =
      (flatPairs d).filterMap (fun p => (resolveChat w p.2).map
        (fun sid => (sid, contextPrefix pn sq sn p.1 ++ mc))) ∧
    sendsOf (send_message_to_assigned_users
        { w with sendOk := fun _ _ => false } d sn sq pn mc) =
      sendsOf (send_message_to_assigned_users w d sn sq pn mc) := by
  refine ⟨lookups_delivery w d sn sq pn mc, sends_delivery w d sn sq pn mc, ?_⟩
  rw [sends_delivery, sends_delivery]
  rfl

/-- C1, counterexample.  Shot 5 in `Wshot` has two tasks (steps "anim" and
"comp") both assigned to the same user 42 with email "a@x" (Slack id
"U42").  The handler sends one message per (task, assignee) occurrence, so
the single distinct assignee email receives TWO messages, not exactly
one. -/
theorem C1_counterexample :
    ((sendsOf (handle_shot_event Wshot Eshot).2).countP
      (fun p => p.1 == "U42")) = 2 ∧
    ¬ (((sendsOf (handle_shot_event Wshot Eshot).2).countP
      (fun p => p.1 == "U42")) = 1) := by
  refine ⟨by decide, by decide⟩

/-- C1, amended.  For a Shot status-change event whose Shot resolves with a
non-empty assignment grouping, the handler answers success and sends one
message per (step, email) OCCURRENCE in the grouping (so a distinct
assignee email receives at least one message, and exactly one per task it
is assigned to — not exactly one overall), restricted to emails whose chat
identity resolves; every message body is the context prefix followed by
the status-change sentence, which quotes the old and new labels as resolved
through the runtime status table (raw codes when absent from it). -/
theorem C1_corrected (w : World) (e : Envelope)
    (assigned : List (String × List String)) (sn sq pn : String)
    (hres : get_assigned_users_from_tasks w (sgId e.entityId) =
      some (assigned, sn, sq, pn))
    (hne : assigned.isEmpty = false) :
    (handle_shot_event w e).1 = some ("success", 200) ∧
    sendsOf (handle_shot_event w e).2 =
      (flatPairs assigned).filterMap (fun p => (resolveChat w p.2).map
        (fun sid => (sid, contextPrefix pn sq sn p.1 ++
          shotStatusMessage e.oldValue e.newValue))) := by
  have h := sends_per_step_delivery w assigned sn sq pn
    (shotStatusMessage e.oldValue e.newValue)
  constructor
  · simp [handle_shot_event, hres, hne]
  · simp only [handle_shot_event, hres, hne, Bool.false_eq_true, if_false]
    exact h

/-- Witness for C1_corrected at the concrete world `Wshot` and envelope
`Eshot`. -/
theorem C1_corrected_witness :
    (handle_shot_event Wshot Eshot).1 = some ("success", 200) ∧
    sendsOf (handle_shot_event Wshot Eshot).2 =
      (flatPairs [("anim", ["a@x"]), ("comp", ["a@x"])]).filterMap
        (fun p => (resolveChat Wshot p.2).map
          (fun sid => (sid, contextPrefix "Atlas" "SQ010" "SH020" p.1 ++
            shotStatusMessage Eshot.oldValue Eshot.newValue))) :=
  C1_corrected Wshot Eshot [("anim", ["a@x"]), ("comp", ["a@x"])]
    "SH020" "SQ010" "Atlas" (by decide) (by decide)

/-- C2, code bug.  The source writes two status tables (lines 287 and 470)
intending Shot-domain and Asset-domain lookups, but both assignments bind
the same module-level name `STATUS_DESCRIPTIONS`; the second rebinds it
at module load, so at runtime a single table (the Asset-domain one) serves
every handler.  Behaviourally: a Shot status change from "pla" (Plate, a
code present only in the Shot-domain table) is rendered with the raw code
"pla", not the label "Plate" the Shot-domain table specifies. -/
theorem C2_code_bug :
    sendsOf (handle_shot_event Wshot1 EshotPla).2 =
      [("U42", "In Atlas|SQ010|SH020|anim\nA shot status has been changed from \x27pla\x27 to \x27Final\x27.")] ∧
    STATUS_DESCRIPTIONS_shot.lookup "pla" = some "Plate" ∧
    STATUS_DESCRIPTIONS.lookup "pla" = none := by
  refine ⟨by decide, by decide, by decide⟩

theorem countP_zero_of_all_false {α : Type} (p : α → Bool) (l : List α)
    (h : ∀ a ∈ l, p a = false) : l.countP p = 0 := by
  induction l with
  | nil => rfl
  | cons a l ih =>
    rw [List.countP_cons, h a (List.mem_cons_self a l),
      ih (fun b hb => h b (List.mem_cons_of_mem a hb))]
    simp

theorem throttle_free_delivery (w : World) (d : List (String × List String))
    (sn sq pn mc : String) :
    ∀ ef ∈ send_message_to_assigned_users w d sn sq pn mc,
      isThrottleE ef = false := by
  intro ef hef
  simp only [send_message_to_assigned_users, List.mem_flatten,
    List.mem_map] at hef
  obtain ⟨l, ⟨p, hp, rfl⟩, hl⟩ := hef
  simp only [List.mem_flatten, List.mem_map] at hl
  obtain ⟨l2, ⟨em, hem, rfl⟩, hl2⟩ := hl
  rcases List.mem_cons.mp hl2 with h | h
  · subst h; rfl
  · cases hrc : resolveChat w em with
    | none => rw [hrc] at h; cases h
    | some sid =>
      rw [hrc] at h
      simp only [send_slack_message, List.mem_singleton] at h
      subst h; rfl

theorem throttle_free_shot (w : World) (e : Envelope) :
    ∀ ef ∈ (handle_shot_event w e).2, isThrottleE ef = false := by
  intro ef hef
  simp only [handle_shot_event] at hef
  cases hres : get_assigned_users_from_tasks w (sgId e.entityId) with
  | none =>
    rw [hres] at hef
    simp only [List.mem_singleton] at hef
    subst hef; rfl
  | some r =>
    obtain ⟨assigned, sn, sq, pn⟩ := r
    rw [hres] at hef
    cases hne : assigned.isEmpty with
    | true =>
      simp only [hne, if_true, List.mem_singleton] at hef
      subst hef; rfl
    | false =>
      simp only [hne, Bool.false_eq_true, if_false, List.mem_cons] at hef
      rcases hef with h | h
      · subst h; rfl
      · simp only [List.mem_flatten, List.mem_map] at h
        obtain ⟨l, ⟨p, hp, rfl⟩, hl⟩ := h
        exact throttle_free_delivery w [p] sn sq pn _ ef hl

theorem countThrottle_delivery (w : World) (d : List (String × List String))
    (sn sq pn mc : String) :
    (send_message_to_assigned_users w d sn sq pn mc).countP isThrottleE = 0 :=
  countP_zero_of_all_false _ _ (throttle_free_delivery w d sn sq pn mc)

theorem countThrottle_per_step (w : World)
    (assigned : List (String × List String)) (sn sq pn mc : String) :
    ((assigned.map (fun p =>
      send_message_to_assigned_users w [p] sn sq pn mc)).flatten).countP
        isThrottleE = 0 := by
  induction assigned with
  | nil => rfl
  | cons p d ih =>
    simp [List.countP_append, countThrottle_delivery, ih]

theorem countThrottle_shot (w : World) (e : Envelope) :
    (handle_shot_event w e).2.countP isThrottleE = 0 :=
  countP_zero_of_all_false _ _ (throttle_free_shot w e)

theorem sum_countThrottle_per_step (w : World)
    (assigned : List (String × List String)) (sn sq pn mc : String) :
    (List.map (List.countP isThrottleE ∘ fun p =>
      send_message_to_assigned_users w [p] sn sq pn mc) assigned).sum = 0 := by
  induction assigned with
  | nil => rfl
  | cons p d ih => simp [countThrottle_delivery, ih, Function.comp]

theorem countThrottle_asset (w : World) (e : Envelope) :
    (handle_asset_event w e).2.countP isThrottleE = 0 := by
  simp only [handle_asset_event]
  repeat' split
  all_goals
    simp [List.countP_append, List.countP_cons, countThrottle_per_step,
      sum_countThrottle_per_step, isThrottleE]

theorem countThrottle_note (w : World) (e : Envelope) :
    (handle_note_event w e).2.countP isThrottleE = 0 := by
  simp only [handle_note_event]
  repeat' split
  all_goals
    simp [List.countP_append, List.countP_cons, countThrottle_per_step,
      sum_countThrottle_per_step, isThrottleE]

theorem countThrottle_authorLookup (rd : ReplyRec) :
    (replyAuthorLookupEff rd).countP isThrottleE = 0 := by
  unfold replyAuthorLookupEff
  split <;> rfl

theorem countThrottle_reply (w : World) (e : Envelope) :
    (handle_reply_event w e).2.countP isThrottleE = 0 := by
  simp only [handle_reply_event]
  repeat' split
  all_goals
    simp [List.countP_append, List.countP_cons, countThrottle_delivery,
      countThrottle_authorLookup, send_slack_message, isThrottleE]

theorem countThrottle_assignees (w : World) (pn sq sn st body : String)
    (ids : List Nat) :
    (taskAssigneeEffects w pn sq sn st body ids).countP isThrottleE = 0 := by
  induction ids with
  | nil => rfl
  | cons a ids ih =>
    simp only [taskAssigneeEffects, List.map_cons, List.flatten_cons,
      List.countP_append] at ih ⊢
    rw [ih]
    repeat' split
    all_goals simp [List.countP_cons, send_slack_message, isThrottleE]

theorem countThrottle_task (w : World) (e : Envelope) :
    (handle_task_assignment_event w e).2.countP isThrottleE = 0 := by
  simp only [handle_task_assignment_event]
  repeat' split
  all_goals
    simp [List.countP_append, List.countP_cons, countThrottle_assignees,
      isThrottleE]

/-- C3, counterexample.  The delivery fan-out path sends without any rate
limiting: on a one-recipient recipient set, the trace holds one send and
zero `Throttler.throttle` calls, so the send is not preceded by an admitted
rate-limiter check.  (The `throttler` instance created on line 50 of
src/bot.py is never invoked anywhere.) -/
theorem C3_counterexample :
    ¬ rateLimiterGated deliverTrace1 ∧
    deliverTrace1.countP isSendE = 1 ∧
    deliverTrace1.countP isThrottleE = 0 := by
  refine ⟨?_, by decide, by decide⟩
  intro hg
  obtain ⟨j, hj, hth⟩ := hg 1 (by decide) (by decide)
  have hj0 : j = 0 := by omega
  subst hj0
  exact absurd hth (by decide)


/-- C3, amended.  No send path consults the RateLimiter at all: for every
envelope and every world, the webhook's entire effect trace contains zero
`Throttler.throttle` calls (while it can contain sends, per
C3_counterexample) — the throttler instance is dead code and outbound sends
are ungated. -/
theorem C3_corrected (w : World) (e : Envelope) :
    (webhook w e).2.countP isThrottleE = 0 := by
  unfold webhook
  by_cases h1 : e.entityType = some "Shot"
  · simp only [if_pos h1]
    have hc := countThrottle_shot w e
    rcases hX : handle_shot_event w e with ⟨o, eff⟩
    rw [hX] at hc
    cases o <;> simpa using hc
  · simp only [if_neg h1]
    by_cases h2 : e.entityType = some "Note" ∧
        e.eventType = some "Shotgun_Note_New" ∧ e.operation = some "create"
    · simp only [if_pos h2]
      have hc := countThrottle_note w e
      rcases hX : handle_note_event w e with ⟨o, eff⟩
      rw [hX] at hc
      cases o <;> simpa using hc
    · simp only [if_neg h2]
      by_cases h3 : e.entityType = some "Reply" ∧
          e.eventType = some "Shotgun_Reply_New" ∧ e.operation = some "create"
      · simp only [if_pos h3]
        have hc := countThrottle_reply w e
        rcases hX : handle_reply_event w e with ⟨o, eff⟩
        rw [hX] at hc
        cases o <;> simpa using hc
      · simp only [if_neg h3]
        by_cases h4 : e.entityType = some "Task" ∧
            e.eventType = some "Shotgun_Task_Change" ∧
            e.operation = some "update"
        · simp only [if_pos h4]
          have hc := countThrottle_task w e
          rcases hX : handle_task_assignment_event w e with ⟨o, eff⟩
          rw [hX] at hc
          cases o <;> simpa using hc
        · simp only [if_neg h4]
          rfl

theorem sendsOf_authorLookup (rd : ReplyRec) :
    sendsOf (replyAuthorLookupEff rd) = [] := by
  unfold replyAuthorLookupEff
  split <;> rfl

theorem sendsOf_track_cons (k : String) (v : SgVal) (l : List Effect) :
    sendsOf (Effect.track k v :: l) = sendsOf l := rfl

/-- C5, counterexample.  Reply 3's note HAS a linked entity (a Version), so
the claim requires the body "A new Reply has been created:\nhi\nRelated
Note: orig" to be sent to that entity's resolved recipients; instead the
code (whose Shot-only branch falls through for any non-Shot link) sends
exactly one SELF-addressed message to the reply's author, whose body says
"by you" and differs from the claimed body — no message with the claimed
body is produced at all. -/
theorem C5_counterexample :
    sendsOf (handle_reply_event Wreply Ereply).2 =
      [("U1", "A new Reply has been created by you:\nhi\nRelated Note: orig")] ∧
    (sendsOf (handle_reply_event Wreply Ereply).2).countP
      (fun p =>
        p.2 == "A new Reply has been created:\nhi\nRelated Note: orig") = 0 := by
  refine ⟨by decide, by decide⟩

/-- C5, amended.  For a Reply-created event whose Reply record resolves:
(1) if the parent note's FIRST linked entity is a Shot whose resolution
yields a non-empty assignment grouping, the body "A new Reply has been
created:\n<reply>\nRelated Note: <note>" is delivered (context-prefixed) to
those recipients; (2) if no linked entity is a first-position Shot (no
links at all, or a first link of another type) and the author's chat
identity resolves, the author receives a single self-addressed copy whose
body reads "A new Reply has been created by you:\n<reply>\nRelated Note:
<note>"; (3) in the same situation with an unresolvable author, no message
is produced and the handler answers 404. -/
theorem C5_corrected (w : World) (e : Envelope) (n : Nat) (rd : ReplyRec)
    (hid : e.entityId = some n) (hrd : w.replies n = some rd) :
    (∀ le rest assigned sn sq pn,
      rd.noteLinks = le :: rest → le.type = "Shot" →
      get_assigned_users_from_tasks w (SgVal.i le.id) =
        some (assigned, sn, sq, pn) →
      assigned.isEmpty = false →
      (handle_reply_event w e).1 = some ("success", 200) ∧
      sendsOf (handle_reply_event w e).2 =
        (flatPairs assigned).filterMap (fun p => (resolveChat w p.2).map
          (fun sid => (sid, contextPrefix pn sq sn p.1 ++ replyBody rd)))) ∧
    ((∀ le rest, rd.noteLinks = le :: rest → ¬ le.type = "Shot") →
      ∀ sid, replyAuthorChat w rd = some sid →
      (handle_reply_event w e).1 = some ("success", 200) ∧
      sendsOf (handle_reply_event w e).2 = [(sid, replyBodySelf rd)]) ∧
    ((∀ le rest, rd.noteLinks = le :: rest → ¬ le.type = "Shot") →
      replyAuthorChat w rd = none →
      (handle_reply_event w e).1 =
        some ("No users found for notification", 404) ∧
      sendsOf (handle_reply_event w e).2 = []) := by
  have hfind : findReply w (sgId e.entityId) = some rd := by
    simp [hid, sgId, findReply, hrd]
  refine ⟨?_, ?_, ?_⟩
  · intro le rest assigned sn sq pn hlk hty hres hne
    have htr : (handle_reply_event w e).1 = some ("success", 200) ∧
        (handle_reply_event w e).2 =
          (Effect.track "Reply" (sgId e.entityId) ::
            replyAuthorLookupEff rd) ++
            Effect.track "Shot" (SgVal.i le.id) ::
              send_message_to_assigned_users w assigned sn sq pn
                (replyBody rd) := by
      simp only [handle_reply_event, hfind, hlk, if_pos hty, hres, hne,
        Bool.false_eq_true, if_false]
      refine ⟨?_, ?_⟩ <;> first | rfl | trivial
    refine ⟨htr.1, ?_⟩
    rw [htr.2, sendsOf_append, sendsOf_track_cons, sendsOf_track_cons,
      sendsOf_authorLookup, sends_delivery]
    rfl
  · intro hns sid hauth
    have hself : (handle_reply_event w e).1 = some ("success", 200) ∧
        (handle_reply_event w e).2 =
          Effect.track "Reply" (sgId e.entityId) ::
            (replyAuthorLookupEff rd ++
              send_slack_message w sid (replyBodySelf rd)) := by
      cases hlk : rd.noteLinks with
      | nil =>
        simp only [handle_reply_event, hfind, hlk, hauth]
        refine ⟨?_, ?_⟩ <;> first | rfl | trivial
      | cons le rest =>
        simp only [handle_reply_event, hfind, hlk,
          if_neg (hns le rest hlk), hauth]
        refine ⟨?_, ?_⟩ <;> first | rfl | trivial
    refine ⟨hself.1, ?_⟩
    rw [hself.2, sendsOf_track_cons, sendsOf_append, sendsOf_authorLookup]
    rfl
  · intro hns hauth
    have hself : (handle_reply_event w e).1 =
        some ("No users found for notification", 404) ∧
        (handle_reply_event w e).2 =
          Effect.track "Reply" (sgId e.entityId) ::
            replyAuthorLookupEff rd := by
      cases hlk : rd.noteLinks with
      | nil =>
        simp only [handle_reply_event, hfind, hlk, hauth]
        refine ⟨?_, ?_⟩ <;> first | rfl | trivial
      | cons le rest =>
        simp only [handle_reply_event, hfind, hlk,
          if_neg (hns le rest hlk), hauth]
        refine ⟨?_, ?_⟩ <;> first | rfl | trivial
    refine ⟨hself.1, ?_⟩
    rw [hself.2, sendsOf_track_cons, sendsOf_authorLookup]

/-- Witness for C5_corrected (self-addressed branch) at the concrete world
`Wreply` and envelope `Ereply`. -/
theorem C5_corrected_witness :
    (handle_reply_event Wreply Ereply).1 = some ("success", 200) ∧
    sendsOf (handle_reply_event Wreply Ereply).2 =
      [("U1", replyBodySelf
        ⟨some "hi", some "orig", [⟨"Version", 9⟩], some "a@x"⟩)] :=
  (C5_corrected Wreply Ereply 3
      ⟨some "hi", some "orig", [⟨"Version", 9⟩], some "a@x"⟩
      rfl (by decide)).2.1
    (by
      intro le rest h
      injection h with h1 h2
      subst h1
      decide)
    "U1" (by decide)

/-- C6, confirmed.  A Version that exists in the tracking source but has no
linked Shot resolves to `some` of an EMPTY recipient grouping together with
the version and project names (a valid "no recipients" outcome), which is a
different constructor from the `none` (NotFound) returned when the Version
record itself is absent. -/
theorem C6_confirmed (w : World) (n m : Nat) (vd : VersionRec)
    (vn pn : String)
    (hv : w.versions n = some vd) (hcode : vd.code = some vn)
    (hproj : vd.projectName = some pn) (hnoshot : vd.shotCode = none)
    (habs : w.versions m = none) :
    get_assigned_users_from_version_tasks w (SgVal.i n) =
      some ([], vn, some pn) ∧
    get_assigned_users_from_version_tasks w (SgVal.i m) = none := by
  constructor
  · simp [get_assigned_users_from_version_tasks, findVersion, hv, hcode,
      hproj, hnoshot]
  · simp [get_assigned_users_from_version_tasks, findVersion, habs]

/-- Witness for C6_confirmed: in `Wver`, Version 9 exists without a linked
shot and Version 8 does not exist. -/
theorem C6_confirmed_witness :
    get_assigned_users_from_version_tasks Wver (SgVal.i 9) =
      some ([], "V9", some "Atlas") ∧
    get_assigned_users_from_version_tasks Wver (SgVal.i 8) = none :=
  C6_confirmed Wver 9 8 ⟨some "V9", some "Atlas", none⟩ "V9" "Atlas"
    (by decide) rfl rfl rfl (by decide)

/-- C8, confirmed.  An envelope whose (entity_type, event_type, operation)
triple matches none of the webhook's dispatch rows — which is the case for
every envelope with entity_type "Asset", since no row routes it — receives
the 400 response "Entity type or event not supported" with an EMPTY effect
trace: no tracking-source lookup, no Slack lookup and no send. -/
theorem C8_confirmed (w : World) (e : Envelope)
    (h1 : ¬ e.entityType = some "Shot")
    (h2 : ¬ (e.entityType = some "Note" ∧
      e.eventType = some "Shotgun_Note_New" ∧ e.operation = some "create"))
    (h3 : ¬ (e.entityType = some "Reply" ∧
      e.eventType = some "Shotgun_Reply_New" ∧ e.operation = some "create"))
    (h4 : ¬ (e.entityType = some "Task" ∧
      e.eventType = some "Shotgun_Task_Change" ∧
      e.operation = some "update")) :
    webhook w e = (("Entity type or event not supported", 400), []) := by
  simp only [webhook, if_neg h1, if_neg h2, if_neg h3, if_neg h4]

/-- Witness for C8_confirmed at an Asset status-change envelope. -/
theorem C8_confirmed_witness :
    webhook emptyWorld Easset =
      (("Entity type or event not supported", 400), []) :=
  C8_confirmed emptyWorld Easset (by decide) (by decide) (by decide)
    (by decide)

/-- C9, confirmed.  A task-assignment event with `added=[{id:7}]`,
`removed=[]` on Task n linked to Shot m named "SH020" in step "anim", with
shot fields resolving project "Atlas" and sequence "SQ010", and user 7
resolving to email `em` and chat identity `sid`, produces the success
response and exactly one outbound message, to `sid`, with body
"In Atlas|SQ010|SH020|anim\nYou have been assigned to a task.". -/
theorem C9_confirmed (w : World) (e : Envelope) (n m : Nat)
    (em sid : String) (sd : ShotRec)
    (hty : e.entityType = some "Task")
    (hev : e.eventType = some "Shotgun_Task_Change")
    (hop : e.operation = some "update")
    (hat : e.attributeName = some "task_assignees")
    (hid : e.entityId = some n)
    (htask : w.tasks n = some ⟨some ⟨"Shot", m, "SH020"⟩, some "anim"⟩)
    (hshot : w.shots m = some sd)
    (hproj : sd.projectName = some "Atlas")
    (hseq : sd.seqCode = some "SQ010")
    (hadd : e.added = [7]) (hrem : e.removed = [])
    (hem : w.users 7 = some em) (hemne : ¬ em = "")
    (hsid : resolveChat w em = some sid) :
    (webhook w e).1 = ("success", 200) ∧
    sendsOf (webhook w e).2 =
      [(sid, "In Atlas|SQ010|SH020|anim\nYou have been assigned to a task.")] := by
  have hassign : taskAssigneeEffects w "Atlas" "SQ010" "SH020" "anim"
      "You have been assigned to a task." [7] =
      [Effect.track "HumanUser" (SgVal.i 7), Effect.slackLookup em,
       Effect.send sid
         (contextPrefix "Atlas" "SQ010" "SH020" "anim" ++
           "You have been assigned to a task.")
         (w.sendOk sid (contextPrefix "Atlas" "SQ010" "SH020" "anim" ++
           "You have been assigned to a task."))] := by
    simp [taskAssigneeEffects, get_shotgrid_user_email, hem, hemne, hsid,
      send_slack_message]
  have hhandler : handle_task_assignment_event w e =
      (some ("success", 200),
        [Effect.track "Task" (SgVal.i n), Effect.track "Shot" (SgVal.i m)]
          ++ taskAssigneeEffects w "Atlas" "SQ010" "SH020" "anim"
              "You have been assigned to a task." [7]
          ++ taskAssigneeEffects w "Atlas" "SQ010" "SH020" "anim"
              "You have been removed from a task." []) := by
    rw [handle_task_assignment_event, if_neg (by simp [hat])]
    simp only [hid, sgId, findTask, htask, hshot, hproj, hseq, hadd, hrem]
    simp [findShot, hshot, hproj, hseq]
  have h1 : ¬ e.entityType = some "Shot" := by simp [hty]
  have h2 : ¬ (e.entityType = some "Note" ∧
      e.eventType = some "Shotgun_Note_New" ∧
      e.operation = some "create") := by simp [hty]
  have h3 : ¬ (e.entityType = some "Reply" ∧
      e.eventType = some "Shotgun_Reply_New" ∧
      e.operation = some "create") := by simp [hty]
  have h4 : e.entityType = some "Task" ∧
      e.eventType = some "Shotgun_Task_Change" ∧
      e.operation = some "update" := ⟨hty, hev, hop⟩
  simp only [webhook, if_neg h1, if_neg h2, if_neg h3, if_pos h4, hhandler]
  refine ⟨?_, ?_⟩
  · first | rfl | trivial
  · rw [show taskAssigneeEffects w "Atlas" "SQ010" "SH020" "anim"
        "You have been removed from a task." [] = [] from rfl, hassign]
    simp [sendsOf]
    rfl

/-- Witness for C9_confirmed at the concrete world `Wtask` and envelope
`Etask`. -/
theorem C9_confirmed_witness :
    (webhook Wtask Etask).1 = ("success", 200) ∧
    sendsOf (webhook Wtask Etask).2 =
      [("U7", "In Atlas|SQ010|SH020|anim\nYou have been assigned to a task.")] :=
  C9_confirmed Wtask Etask 11 5 "u7@x" "U7"
    ⟨some "SH020", some "Atlas", some "SQ010"⟩
    rfl rfl rfl rfl rfl (by decide) (by decide) rfl rfl rfl rfl
    (by decide) (by decide) (by decide)

/-- C10, confirmed.  A task-assignment update whose Task record exists but
whose `entity` field is absent or names a non-Shot entity makes the webhook
answer the 200 response "Not linked to a Shot" with zero messages sent. -/
theorem C10_confirmed (w : World) (e : Envelope) (n : Nat)
    (td : TaskDetailRec)
    (hty : e.entityType = some "Task")
    (hev : e.eventType = some "Shotgun_Task_Change")
    (hop : e.operation = some "update")
    (hat : e.attributeName = some "task_assignees")
    (hid : e.entityId = some n)
    (htask : w.tasks n = some td)
    (hent : ∀ le, td.entity = some le → ¬ le.type = "Shot") :
    (webhook w e).1 = ("Not linked to a Shot", 200) ∧
    sendsOf (webhook w e).2 = [] := by
  have hhandler : handle_task_assignment_event w e =
      (some ("Not linked to a Shot", 200),
        [Effect.track "Task" (SgVal.i n)]) := by
    rw [handle_task_assignment_event, if_neg (by simp [hat])]
    simp only [hid, sgId, findTask, htask]
    cases hent2 : td.entity with
    | none => simp
    | some le => simp [if_neg (hent le hent2)]
  have h1 : ¬ e.entityType = some "Shot" := by simp [hty]
  have h2 : ¬ (e.entityType = some "Note" ∧
      e.eventType = some "Shotgun_Note_New" ∧
      e.operation = some "create") := by simp [hty]
  have h3 : ¬ (e.entityType = some "Reply" ∧
      e.eventType = some "Shotgun_Reply_New" ∧
      e.operation = some "create") := by simp [hty]
  have h4 : e.entityType = some "Task" ∧
      e.eventType = some "Shotgun_Task_Change" ∧
      e.operation = some "update" := ⟨hty, hev, hop⟩
  simp only [webhook, if_neg h1, if_neg h2, if_neg h3, if_pos h4, hhandler]
  refine ⟨?_, ?_⟩ <;> first | rfl | trivial

/-- Witness for C10_confirmed: Task 12 in `Wtask` is linked to an Asset,
not a Shot. -/
theorem C10_confirmed_witness :
    (webhook Wtask EtaskAsset).1 = ("Not linked to a Shot", 200) ∧
    sendsOf (webhook Wtask EtaskAsset).2 = [] :=
  C10_confirmed Wtask EtaskAsset 12 ⟨some ⟨"Asset", 5, "AS"⟩, some "anim"⟩
    rfl rfl rfl rfl rfl (by decide)
    (by
      intro le h
      injection h with h1
      subst h1
      decide)
